import Mathlib

/-!
Shallow embedding of the cache-aware, purpose-scoped access and
capability-resolution layer of `src/business/organization.ts`
(class `Organization`), together with the configuration record
`OrganizationSetting` it consumes.  JavaScript truthiness on numbers is
modelled by `≠ 0` checks on `Option`-wrapped values (`null`/`undefined`
is `none`, `0` and the empty string are falsy), thrown exceptions by
`Except`, and `null` object references by `Option`.
-/

namespace OpenSourcePortal

/-- Role tags for configuration-designated special teams, from
`entities/organizationSettings/organizationSetting` (enum `SpecialTeam`). -/
inductive SpecialTeam
  | Everyone
  | GlobalSudo
  | Sudo
  | SystemRead
  | SystemWrite
  | SystemAdmin
deriving DecidableEq, Repr

/-- One entry of the `specialTeams` list of an organization's settings:
a `{specialTeam, teamId}` pair. -/
structure SpecialTeamEntry where
  specialTeam : SpecialTeam
  teamId : Nat
deriving DecidableEq, Repr

/-- The slice of `OrganizationSetting` consumed by the embedded operations:
the optional organization name and id used by the `Organization`
constructor, and the `specialTeams` list used by `getSpecialTeam`. -/
structure OrganizationSetting where
  organizationName : Option String
  organizationId : Option Nat
  specialTeams : List SpecialTeamEntry
deriving DecidableEq, Repr

/-- Errors thrown by the embedded organization operations. -/
inductive OrgError
  | multipleSudoerTeams
  | missingSpecialTeam (s : SpecialTeam)
  | unrecognizedMembership
  | upstream (status : Option Nat)
  | wrapped (msg : String)
deriving DecidableEq, Repr

/-- A remote-API error as observed by the organization layer: only the
optional numeric `status` field is inspected. -/
structure GHError where
  status : Option Nat
deriving DecidableEq, Repr

/-- The scan loop of `getSpecialTeam` (organization.ts lines 883-889):
walk the `specialTeams` entries and take the FIRST entry whose role tag
matches, breaking out of the loop. -/
def findSpecialTeamId : List SpecialTeamEntry → SpecialTeam → Option Nat
  | [], _ => none
  | e :: rest, s => if e.specialTeam = s then some e.teamId else findSpecialTeamId rest s

/-- The list built at the end of `getSpecialTeam` (lines 901-905):
`if (teamId) teams.push(teamId)` — a singleton when the found team id is
truthy (non-null, non-zero), otherwise empty. -/
def specialTeamIds (settings : OrganizationSetting) (s : SpecialTeam) : List Nat :=
  match findSpecialTeamId settings.specialTeams s with
  | some t => if t = 0 then [] else [t]
  | none => []

/-- `getSpecialTeam(specialTeam, friendlyName, throwIfMissing?)`
(lines 882-906).  When `throwIfMissing` is truthy the code throws
unconditionally after the scan; otherwise it returns the id list. -/
def getSpecialTeam (settings : OrganizationSetting) (s : SpecialTeam)
    (throwIfMissing : Bool) : Except OrgError (List Nat) :=
  if throwIfMissing then Except.error (OrgError.missingSpecialTeam s)
  else Except.ok (specialTeamIds settings s)

/-- The `sudoersTeam` accessor (lines 289-295): resolve the Sudo special
team ids; throw `'Multiple sudoer teams are not supported.'` when more
than one id was returned; otherwise return the single team (by id) or
`null`. -/
def sudoersTeam (settings : OrganizationSetting) : Except OrgError (Option Nat) :=
  let teams := specialTeamIds settings SpecialTeam.Sudo
  if teams.length > 1 then Except.error OrgError.multipleSudoerTeams
  else Except.ok (if teams.length = 1 then teams.head? else none)

/-- The record returned by the `specialRepositoryPermissionTeams`
accessor (lines 297-303). -/
structure SpecialRepositoryPermissionTeams where
  read : List Nat
  write : List Nat
  admin : List Nat
deriving DecidableEq, Repr

/-- The `specialRepositoryPermissionTeams` accessor (lines 297-303). -/
def specialRepositoryPermissionTeams (settings : OrganizationSetting) :
    SpecialRepositoryPermissionTeams :=
  { read := specialTeamIds settings SpecialTeam.SystemRead
    write := specialTeamIds settings SpecialTeam.SystemWrite
    admin := specialTeamIds settings SpecialTeam.SystemAdmin }

/-- Specification-side description of the configured team ids of one
role: ALL entries tagged with the role, in configuration order.  Used to
compare the source's first-match resolver against the spec's
set-of-ids reading. -/
def configuredTeamIds (settings : OrganizationSetting) (s : SpecialTeam) : List Nat :=
  (settings.specialTeams.filter (fun e => e.specialTeam = s)).map (fun e => e.teamId)

/-- Singleton-or-empty built from the head of a configured-id list,
mirroring the truthiness check of `getSpecialTeam`. -/
def headSingleton (l : List Nat) : List Nat :=
  match l.head? with
  | some t => if t = 0 then [] else [t]
  | none => []

/-! ### Team name/slug resolution (`getTeamFromName`, lines 464-508) -/

/-- JavaScript `.toLowerCase()` as used on team names, slugs and the
input (character-wise lowercasing), written over the character list so
that it evaluates by kernel reduction. -/
def jsToLower (s : String) : String :=
  String.mk (s.data.map Char.toLower)

/-- The slice of a `Team` wrapper inspected by `getTeamFromName`. -/
structure Team where
  id : Nat
  name : String
  slug : String
deriving DecidableEq, Repr

/-- Outcome of `getTeamFromName`: either a team is returned, or one of
three values is thrown — the redirect error built at lines 484-488, the
bare `Team` object thrown at line 502, or the not-found error built at
lines 504-506. -/
inductive TeamLookupResult
  | found (t : Team)
  | redirectError (status : Nat) (slug : String) (t : Team)
  | thrownTeam (t : Team)
  | notFound (status : Nat) (skipLog : Bool)
deriving DecidableEq, Repr

/-- The scan loop of `getTeamFromName` (lines 474-507), carrying the
`alternativeCandidateById` accumulator.  Per team, in source order:
lower-cased name equal to the input with name differing from slug throws
the 301 redirect error; a team whose decimal id equals the input is
remembered (latest wins) as the id fallback; an exact lower-cased slug
match returns the team.  After the loop, a remembered id candidate is
thrown AS the `Team` object itself (line 502: `throw
alternativeCandidateById`), else a 404 error with `skipLog` set. -/
def getTeamFromNameLoop (expected : String) :
    List Team → Option Team → TeamLookupResult
  | [], alt =>
    match alt with
    | some t => TeamLookupResult.thrownTeam t
    | none => TeamLookupResult.notFound 404 true
  | team :: rest, alt =>
    let name := jsToLower team.name
    let slug := jsToLower team.slug
    if expected = name ∧ name ≠ slug then
      TeamLookupResult.redirectError 301 slug team
    else
      let alt2 := if toString team.id = expected then some team else alt
      if expected = slug then TeamLookupResult.found team
      else getTeamFromNameLoop expected rest alt2

/-- `getTeamFromName(nameOrSlug)` applied to the team list fetched from
`getTeams`: lower-case the input and scan. -/
def getTeamFromName (nameOrSlug : String) (teams : List Team) : TeamLookupResult :=
  getTeamFromNameLoop (jsToLower nameOrSlug) teams none

/-! ### Organization identity state (constructor lines 155-165, `getDetails`
lines 429-443) -/

/-- The slice of the remote `orgs.get` response entity inspected by
`getDetails`: only `entity.id` matters (`if (entity && entity.id)`). -/
structure GitHubOrgEntity where
  id : Nat
deriving DecidableEq, Repr

/-- Mutable identity state of an `Organization` instance: the private
`_name` and the public `id` field (`none` while still unset). -/
structure OrganizationState where
  name : String
  id : Option Nat
deriving DecidableEq, Repr

/-- JavaScript `a || b` on an optional string: the empty string is falsy. -/
def jsStringOr (a : Option String) (b : String) : String :=
  match a with
  | some s => if s = "" then b else s
  | none => b

/-- The `Organization` constructor (lines 155-165): `_name` is
`settings.organizationName || name`, and `id` is assigned from
`settings.organizationId` when that value is truthy. -/
def constructOrganization (name : String) (settings : OrganizationSetting) :
    OrganizationState :=
  { name := jsStringOr settings.organizationName name
    id :=
      match settings.organizationId with
      | some oid => if oid = 0 then none else some oid
      | none => none }

/-- The state effect of one `getDetails` call (lines 429-443) given the
remote response entity (`none` models a falsy response): `if (entity &&
entity.id) this.id = entity.id`, and nothing else on the instance is
written. -/
def getDetailsUpdate (st : OrganizationState) (entity : Option GitHubOrgEntity) :
    OrganizationState :=
  match entity with
  | some e => if e.id ≠ 0 then { st with id := some e.id } else st
  | none => st

/-- A sequence of `getDetails` calls applied in order. -/
def runGetDetails (st : OrganizationState) (responses : List (Option GitHubOrgEntity)) :
    OrganizationState :=
  responses.foldl getDetailsUpdate st

/-- The truthy id carried by one `getDetails` response, if any. -/
def truthyId : Option GitHubOrgEntity → Option Nat
  | some e => if e.id ≠ 0 then some e.id else none
  | none => none

/-- The id carried by the LAST response in the list whose entity has a
truthy id, if any; used to characterise `runGetDetails`. -/
def lastTruthyId : List (Option GitHubOrgEntity) → Option Nat
  | [] => none
  | o :: rest => (lastTruthyId rest).elim (truthyId o) some

/-! ### Purpose-scoped credential binding and the remote call surface -/

/-- `AppPurpose` values used by `Organization` (from `../github`). -/
inductive AppPurpose
  | Data
  | Operations
  | CustomerFacing
deriving DecidableEq, Repr

/-- The authorization argument handed to the remote client at a call
site: either a purpose-bound credential supplier produced by
`this.authorize(purpose)` / `this._getAuthorizationHeader.bind(this,
purpose)`, or a literal user-token header string. -/
inductive AuthCredential
  | purpose (p : AppPurpose)
  | userToken (header : String)
deriving DecidableEq, Repr

/-- A remote call as issued by an organization operation: the
authorization argument, the remote method name, and the (string-valued)
parameters the call site assembles. -/
structure RemoteCall where
  credential : AuthCredential
  method : String
  params : List (String × String)
deriving DecidableEq, Repr

/-- The remote call of `createRepository` (line 408):
`github.post(this.authorize(AppPurpose.Operations), 'repos.createInOrg',
{org, name, ...options})`. -/
def createRepositoryCall (orgName repositoryName : String) : RemoteCall :=
  { credential := AuthCredential.purpose AppPurpose.Operations
    method := "repos.createInOrg"
    params := [("org", orgName), ("name", repositoryName)] }

/-- The remote call of `addMembership` (lines 637-643), with
`role = options.role || 'member'`. -/
def addMembershipCall (orgName username : String) (role : Option String) : RemoteCall :=
  { credential := AuthCredential.purpose AppPurpose.Operations
    method := "orgs.addOrUpdateMembership"
    params := [("org", orgName), ("username", username), ("role", jsStringOr role "member")] }

/-- The primary remote call of `removeMember` (line 772). -/
def removeMemberCall (orgName login : String) : RemoteCall :=
  { credential := AuthCredential.purpose AppPurpose.Operations
    method := "orgs.removeMembership"
    params := [("org", orgName), ("username", login)] }

/-- The remote call of `acceptOrganizationInvitation` (line 585):
`github.post(`token ${userToken}`, 'orgs.updateMembership', {org,
state: 'active'})` — a raw user-token header, not a purpose binding. -/
def acceptOrganizationInvitationCall (orgName userToken : String) : RemoteCall :=
  { credential := AuthCredential.userToken ("token " ++ userToken)
    method := "orgs.updateMembership"
    params := [("org", orgName), ("state", "active")] }

/-- The remote call of `checkPublicMembership` (line 659). -/
def checkPublicMembershipCall (orgName username : String) : RemoteCall :=
  { credential := AuthCredential.purpose AppPurpose.CustomerFacing
    method := "orgs.checkPublicMembership"
    params := [("username", username), ("org", orgName)] }

/-- The paginated collection call of `getMembers` (line 721), whose
credential supplier is `this._getAuthorizationHeader.bind(this,
AppPurpose.Data)`. -/
def getMembersCall (orgName : String) (perPage : Nat) : RemoteCall :=
  { credential := AuthCredential.purpose AppPurpose.Data
    method := "collections.getOrgMembers"
    params := [("org", orgName), ("per_page", toString perPage)] }

/-- The paginated collection call of `getTeams` (line 759). -/
def getTeamsCall (orgName : String) (perPage : Nat) : RemoteCall :=
  { credential := AuthCredential.purpose AppPurpose.Data
    method := "collections.getOrgTeams"
    params := [("org", orgName), ("per_page", toString perPage)] }

/-- The paginated collection call of `getRepositories` (line 210), whose
credential supplier is `this.authorize(AppPurpose.Data)`. -/
def getRepositoriesCall (orgName : String) (perPage : Nat) : RemoteCall :=
  { credential := AuthCredential.purpose AppPurpose.Data
    method := "collections.getOrgRepos"
    params := [("org", orgName), ("type", "all"), ("per_page", toString perPage)] }

/-! ### Caching policies of the three listing operations -/

/-- The caller-supplied paged cache options (`IPagedCacheOptions`):
every field optional (`none` = absent/undefined). -/
structure PagedCacheOptions where
  maxAgeSeconds : Option Int
  backgroundRefresh : Option Bool
  pageRequestDelay : Option Nat
deriving DecidableEq, Repr

/-- The caching policy object handed to the collection fetcher.
`backgroundRefresh` stays an `Option` because `getTeams` copies the
caller's possibly-undefined value into it verbatim. -/
structure CachingPolicy where
  maxAgeSeconds : Int
  backgroundRefresh : Option Bool
  pageRequestDelay : Option Nat
deriving DecidableEq, Repr

/-- JavaScript `a || b` on an optional number: `0` is falsy. -/
def jsNumOr (a : Option Int) (b : Int) : Int :=
  match a with
  | some v => if v = 0 then b else v
  | none => b

/-- JavaScript `a || null` on an optional number: `0` collapses to null. -/
def jsDelayOrNull (a : Option Nat) : Option Nat :=
  match a with
  | some v => if v = 0 then none else some v
  | none => none

/-- The caching policy built by `getRepositories` (lines 202-209):
`backgroundRefresh` starts `true` and is set to `false` only when the
caller passed exactly `false`. -/
def getRepositoriesCaching (options : PagedCacheOptions) (orgReposStaleSeconds : Int) :
    CachingPolicy :=
  let caching : CachingPolicy :=
    { maxAgeSeconds := jsNumOr options.maxAgeSeconds orgReposStaleSeconds
      backgroundRefresh := some true
      pageRequestDelay := jsDelayOrNull options.pageRequestDelay }
  if options.backgroundRefresh = some false then
    { caching with backgroundRefresh := some false }
  else caching

/-- The caching policy built by `getMembers` (lines 713-720): same
`backgroundRefresh` defaulting as `getRepositories`, and the page delay
copied verbatim. -/
def getMembersCaching (options : PagedCacheOptions) (orgMembersStaleSeconds : Int) :
    CachingPolicy :=
  let caching : CachingPolicy :=
    { maxAgeSeconds := jsNumOr options.maxAgeSeconds orgMembersStaleSeconds
      backgroundRefresh := some true
      pageRequestDelay := options.pageRequestDelay }
  if options.backgroundRefresh = some false then
    { caching with backgroundRefresh := some false }
  else caching

/-- The caching policy built by `getTeams` (lines 752-757): the object
literal sets `backgroundRefresh: true`, and line 757
(`caching.backgroundRefresh = options.backgroundRefresh`) then
overwrites it with the caller's value verbatim — including `undefined`
when the caller omitted it. -/
def getTeamsCaching (options : PagedCacheOptions) (orgTeamsStaleSeconds : Int) :
    CachingPolicy :=
  let caching : CachingPolicy :=
    { maxAgeSeconds := jsNumOr options.maxAgeSeconds orgTeamsStaleSeconds
      backgroundRefresh := some true
      pageRequestDelay := jsDelayOrNull options.pageRequestDelay }
  { caching with backgroundRefresh := options.backgroundRefresh }

/-! ### Sudo determination (`isSudoer`, lines 545-576) -/

/-- `GitHubTeamRole` values as observed from a team-membership response
(from `./team`); `unknownRole` covers any other non-null role string. -/
inductive GitHubTeamRole
  | member
  | maintainer
  | unknownRole (s : String)
deriving DecidableEq, Repr

/-- `isSudoer(username)` (lines 545-576), with the remote
`sudoerTeam.getMembershipEfficiently(username)` outcome injected:
`Except.error` models a thrown error, `Except.ok none` a falsy response
or one without a role.  Returns the result paired with the number of
remote membership queries issued.  The sudoers team resolving to `null`
returns `false` before the debug check and before any remote call; a
thrown 404 maps to `false`; recognized roles `member`/`maintainer` give
`true`; any other non-null role throws. -/
def isSudoer (settings : OrganizationSetting) (orgSudoOff : Bool)
    (membershipOutcome : Except GHError (Option GitHubTeamRole)) :
    Except OrgError Bool × Nat :=
  match sudoersTeam settings with
  | Except.error e => (Except.error e, 0)
  | Except.ok none => (Except.ok false, 0)
  | Except.ok (some _) =>
    if orgSudoOff then (Except.ok false, 0)
    else
      match membershipOutcome with
      | Except.error e =>
        if e.status = some 404 then (Except.ok false, 1)
        else (Except.error (OrgError.upstream e.status), 1)
      | Except.ok membership =>
        match membership with
        | some r =>
          if r = GitHubTeamRole.member ∨ r = GitHubTeamRole.maintainer then
            (Except.ok true, 1)
          else (Except.error OrgError.unrecognizedMembership, 1)
        | none => (Except.ok false, 1)

/-! ### Membership removal with secondary-cache sync (`removeMember`,
lines 764-785) -/

/-- The secondary query-cache synchronization step inside `removeMember`
(lines 774-780): when no member id was supplied, first resolve the
account by username; then call `queryCache.removeOrganizationMember`.
All outcomes are injected. -/
def removeMemberSecondary (optionalId : Option String)
    (accountLookup : Except GHError Nat) (cacheRemoval : Except GHError Unit) :
    Except GHError Unit :=
  match optionalId with
  | some _ => cacheRemoval
  | none =>
    match accountLookup with
    | Except.error e => Except.error e
    | Except.ok _ => cacheRemoval

/-- `removeMember(login, optionalId?)` (lines 764-785): the primary
`orgs.removeMembership` outcome is injected as `primary`;
`queryCacheSupports` models `queryCache && queryCache.supportsOrganizationMembership`.
The secondary step runs inside `try { ... } catch (ignored) {}` — its
outcome is discarded entirely — while a primary failure is wrapped and
re-thrown. -/
def removeMember (primary : Except GHError Unit) (queryCacheSupports : Bool)
    (optionalId : Option String) (accountLookup : Except GHError Nat)
    (cacheRemoval : Except GHError Unit) : Except OrgError Unit :=
  match primary with
  | Except.error _ =>
    Except.error (OrgError.wrapped "Could not remove the organization member")
  | Except.ok _ =>
    if queryCacheSupports then
      match removeMemberSecondary optionalId accountLookup cacheRemoval with
      | Except.error _ => Except.ok ()
      | Except.ok _ => Except.ok ()
    else Except.ok ()

/-! ### Helper lemmas -/

/-- The first-match scan of `getSpecialTeam` returns exactly the head of
the role's configured-id list. -/
theorem findSpecialTeamId_eq_head (entries : List SpecialTeamEntry) (s : SpecialTeam) :
    findSpecialTeamId entries s =
      ((entries.filter (fun e => e.specialTeam = s)).map (fun e => e.teamId)).head? := by
  induction entries with
  | nil => rfl
  | cons e rest ih =>
    by_cases h : e.specialTeam = s <;>
      simp [findSpecialTeamId, List.filter_cons, h, ih]

/-- `specialTeamIds` is the head-singleton of the configured-id list. -/
theorem specialTeamIds_eq_headSingleton (settings : OrganizationSetting) (s : SpecialTeam) :
    specialTeamIds settings s = headSingleton (configuredTeamIds settings s) := by
  unfold specialTeamIds headSingleton configuredTeamIds
  rw [findSpecialTeamId_eq_head]

/-- The resolver never returns more than one team id. -/
theorem specialTeamIds_length_le_one (settings : OrganizationSetting) (s : SpecialTeam) :
    (specialTeamIds settings s).length ≤ 1 := by
  unfold specialTeamIds
  cases findSpecialTeamId settings.specialTeams s with
  | none => simp
  | some t => by_cases h : t = 0 <;> simp [h]

/-- Because the resolver returns at most one id, the `sudoersTeam`
accessor never throws: it returns the head of the resolved list. -/
theorem sudoersTeam_eq_head (settings : OrganizationSetting) :
    sudoersTeam settings =
      Except.ok (specialTeamIds settings SpecialTeam.Sudo).head? := by
  have hle := specialTeamIds_length_le_one settings SpecialTeam.Sudo
  unfold sudoersTeam
  cases hl : specialTeamIds settings SpecialTeam.Sudo with
  | nil => simp
  | cons a rest =>
    rw [hl] at hle
    simp at hle
    subst hle
    simp

/-- `getDetailsUpdate` never writes the `name` field. -/
theorem getDetailsUpdate_name (st : OrganizationState) (entity : Option GitHubOrgEntity) :
    (getDetailsUpdate st entity).name = st.name := by
  cases entity with
  | none => rfl
  | some e =>
    unfold getDetailsUpdate
    by_cases h : e.id ≠ 0 <;> simp [h]

/-- Scan-loop lemma: when the input equals a team's lower-cased slug and
no earlier team triggers the name-redirect or its own slug match, the
scan returns that team, independent of the id-fallback accumulator. -/
theorem getTeamFromNameLoop_slug_found (pre : List Team) :
    ∀ (alt : Option Team) (t : Team) (post : List Team) (expected : String),
      expected = jsToLower t.slug →
      (∀ u ∈ pre, ¬(expected = jsToLower u.name ∧ jsToLower u.name ≠ jsToLower u.slug)) →
      (∀ u ∈ pre, expected ≠ jsToLower u.slug) →
      getTeamFromNameLoop expected (pre ++ t :: post) alt = TeamLookupResult.found t := by
  induction pre with
  | nil =>
    intro alt t post expected hslug _ _
    simp only [List.nil_append, getTeamFromNameLoop]
    rw [if_neg, if_pos hslug]
    rintro ⟨h1, h2⟩
    exact h2 (h1.symm.trans hslug)
  | cons u pre ih =>
    intro alt t post expected hslug hname hslugs
    simp only [List.cons_append, getTeamFromNameLoop]
    rw [if_neg (hname u (by simp)), if_neg (hslugs u (by simp))]
    exact ih _ t post expected hslug
      (fun v hv => hname v (by simp [hv]))
      (fun v hv => hslugs v (by simp [hv]))

/-- Scan-loop lemma: when no team matches by name, slug or id, the scan
ends in the 404 not-found outcome with log suppression. -/
theorem getTeamFromNameLoop_no_match (teams : List Team) :
    ∀ (expected : String),
      (∀ t ∈ teams, expected ≠ jsToLower t.name ∧ expected ≠ jsToLower t.slug ∧
        toString t.id ≠ expected) →
      getTeamFromNameLoop expected teams none = TeamLookupResult.notFound 404 true := by
  induction teams with
  | nil => intro expected _; rfl
  | cons u rest ih =>
    intro expected h
    obtain ⟨hn, hs, hid⟩ := h u (by simp)
    simp only [getTeamFromNameLoop]
    rw [if_neg (fun hc => hn hc.1), if_neg hid, if_neg hs]
    exact ih expected (fun v hv => h v (by simp [hv]))

/-! ### Claim theorems -/

/-- Claim C1, amended.  For an organization whose settings configure
exactly one Sudo special team (with a truthy team id), the resolver
returns the singleton of that id and `sudoersTeam` returns that team;
for zero configured Sudo entries the resolver returns the empty list
and `sudoersTeam` returns null.  However, for two or more configured
Sudo entries `sudoersTeam` does NOT throw: the first-match scan of
`getSpecialTeam` yields only the first entry's id, so the accessor
returns that first team, and in fact `sudoersTeam` never throws for
any settings. -/
theorem sudo_special_team_resolution_amended (settings : OrganizationSetting) (t : Nat) :
    ((configuredTeamIds settings SpecialTeam.Sudo = [t] ∧ t ≠ 0) →
      specialTeamIds settings SpecialTeam.Sudo = [t] ∧
        sudoersTeam settings = Except.ok (some t)) ∧
    (configuredTeamIds settings SpecialTeam.Sudo = [] →
      specialTeamIds settings SpecialTeam.Sudo = [] ∧
        sudoersTeam settings = Except.ok none) ∧
    (((configuredTeamIds settings SpecialTeam.Sudo).head? = some t ∧ t ≠ 0) →
      sudoersTeam settings = Except.ok (some t)) ∧
    (∃ r, sudoersTeam settings = Except.ok r) := by
  have hids := specialTeamIds_eq_headSingleton settings SpecialTeam.Sudo
  have hsudo := sudoersTeam_eq_head settings
  refine ⟨?_, ?_, ?_, ?_⟩
  · rintro ⟨h1, h2⟩
    have : specialTeamIds settings SpecialTeam.Sudo = [t] := by
      rw [hids, h1]; simp [headSingleton, h2]
    exact ⟨this, by rw [hsudo, this]; rfl⟩
  · intro h1
    have : specialTeamIds settings SpecialTeam.Sudo = [] := by
      rw [hids, h1]; rfl
    exact ⟨this, by rw [hsudo, this]; rfl⟩
  · rintro ⟨h1, h2⟩
    have : specialTeamIds settings SpecialTeam.Sudo = [t] := by
      rw [hids]; unfold headSingleton configuredTeamIds at *
      rw [h1]; simp [h2]
    rw [hsudo, this]; rfl
  · exact ⟨_, hsudo⟩

/-- Witness for C1: settings with exactly one Sudo entry (team 3)
resolve to `[3]` and sudoers team 3; the hypotheses of the amended
theorem are discharged at this concrete configuration. -/
theorem sudo_special_team_resolution_amended_witness :
    specialTeamIds ⟨none, none, [⟨SpecialTeam.Sudo, 3⟩]⟩ SpecialTeam.Sudo = [3] ∧
      sudoersTeam ⟨none, none, [⟨SpecialTeam.Sudo, 3⟩]⟩ = Except.ok (some 3) :=
  (sudo_special_team_resolution_amended ⟨none, none, [⟨SpecialTeam.Sudo, 3⟩]⟩ 3).1
    ⟨by decide, by decide⟩

/-- Counterexample for C1 as stated: with TWO configured Sudo entries
(teams 3 and 5), reading `sudoersTeam` does not throw the multiple-sudoer
configuration error — it returns the FIRST configured team, because
`getSpecialTeam` breaks out of its scan at the first matching entry and
the `teams.length > 1` guard in the accessor is unreachable. -/
theorem sudo_two_entries_first_wins :
    sudoersTeam ⟨none, none, [⟨SpecialTeam.Sudo, 3⟩, ⟨SpecialTeam.Sudo, 5⟩]⟩ =
        Except.ok (some 3) ∧
      sudoersTeam ⟨none, none, [⟨SpecialTeam.Sudo, 3⟩, ⟨SpecialTeam.Sudo, 5⟩]⟩ ≠
        Except.error OrgError.multipleSudoerTeams ∧
      configuredTeamIds ⟨none, none, [⟨SpecialTeam.Sudo, 3⟩, ⟨SpecialTeam.Sudo, 5⟩]⟩
        SpecialTeam.Sudo = [3, 5] :=
  ⟨rfl, fun h => Except.noConfusion h, by decide⟩

/-- Claim C2, amended.  Resolving a team by its own slug
(case-insensitively) returns that team directly with no redirect signal
PROVIDED no team earlier in the list triggers the name-divergence
redirect (lower-cased name equal to the input but different from its own
slug) and no earlier team's slug also matches; an earlier team's
name-match redirect is thrown before the scan ever reaches the
slug-matching team. -/
theorem slug_resolution_direct_amended (pre post : List Team) (t : Team) (input : String)
    (hslug : jsToLower input = jsToLower t.slug)
    (hname : ∀ u ∈ pre,
      ¬(jsToLower input = jsToLower u.name ∧ jsToLower u.name ≠ jsToLower u.slug))
    (hslugs : ∀ u ∈ pre, jsToLower input ≠ jsToLower u.slug) :
    getTeamFromName input (pre ++ t :: post) = TeamLookupResult.found t :=
  getTeamFromNameLoop_slug_found pre none t post (jsToLower input) hslug hname hslugs

/-- Witness for C2: the single-team list with slug `core-team` and input
`core-team` resolves directly to that team. -/
theorem slug_resolution_direct_amended_witness :
    getTeamFromName "core-team" [⟨1, "Core Team", "core-team"⟩] =
      TeamLookupResult.found ⟨1, "Core Team", "core-team"⟩ :=
  slug_resolution_direct_amended [] [] ⟨1, "Core Team", "core-team"⟩ "core-team"
    (by decide) (by simp) (by simp)

/-- Counterexample for C2 as stated: the input `beta` equals
(case-insensitively) the SECOND team's slug, yet the scan throws the 301
redirect produced by the FIRST team, whose name is `beta` while its slug
is `alpha` — so slug resolution is not redirect-free in general. -/
theorem slug_match_preempted_by_name_redirect :
    getTeamFromName "beta" [⟨1, "beta", "alpha"⟩, ⟨2, "x", "beta"⟩] =
        TeamLookupResult.redirectError 301 "alpha" ⟨1, "beta", "alpha"⟩ ∧
      jsToLower "beta" = jsToLower (Team.slug ⟨2, "x", "beta"⟩) :=
  ⟨by decide, by decide⟩

/-- Claim C3 evaluated on the code: with one team of id 42 and input
`42`, no name or slug matches, the team is remembered as the id-fallback
candidate, and at the end of the scan the code throws the `Team` object
itself (`throw alternativeCandidateById`, line 502) instead of the
redirect error it just built with status 301 and the canonical slug. -/
theorem id_fallback_throws_team_object :
    getTeamFromName "42" [⟨42, "Answer Team", "answer"⟩] =
      TeamLookupResult.thrownTeam ⟨42, "Answer Team", "answer"⟩ := by decide

/-- Claim C4, amended.  The list-returning accessor
`specialRepositoryPermissionTeams` does NOT return all configured team
ids of a multi-valued role: because `getSpecialTeam` breaks at the first
matching entry, each role's list is the head-singleton of its configured
ids, hence of length at most one. -/
theorem special_permission_teams_first_match_amended (settings : OrganizationSetting) :
    specialRepositoryPermissionTeams settings =
        { read := headSingleton (configuredTeamIds settings SpecialTeam.SystemRead)
          write := headSingleton (configuredTeamIds settings SpecialTeam.SystemWrite)
          admin := headSingleton (configuredTeamIds settings SpecialTeam.SystemAdmin) } ∧
      (specialRepositoryPermissionTeams settings).read.length ≤ 1 ∧
      (specialRepositoryPermissionTeams settings).write.length ≤ 1 ∧
      (specialRepositoryPermissionTeams settings).admin.length ≤ 1 := by
  refine ⟨?_, ?_, ?_, ?_⟩
  · unfold specialRepositoryPermissionTeams
    rw [specialTeamIds_eq_headSingleton, specialTeamIds_eq_headSingleton,
      specialTeamIds_eq_headSingleton]
  · exact specialTeamIds_length_le_one settings SpecialTeam.SystemRead
  · exact specialTeamIds_length_le_one settings SpecialTeam.SystemWrite
  · exact specialTeamIds_length_le_one settings SpecialTeam.SystemAdmin

/-- Counterexample for C4 as stated: with two SystemRead entries (teams
7 and 9) the accessor's `read` list is `[7]`, not the full configured
list `[7, 9]`. -/
theorem system_read_drops_second_entry :
    (specialRepositoryPermissionTeams
        ⟨none, none, [⟨SpecialTeam.SystemRead, 7⟩, ⟨SpecialTeam.SystemRead, 9⟩]⟩).read = [7] ∧
      configuredTeamIds
        ⟨none, none, [⟨SpecialTeam.SystemRead, 7⟩, ⟨SpecialTeam.SystemRead, 9⟩]⟩
        SpecialTeam.SystemRead = [7, 9] ∧
      ([7] : List Nat) ≠ [7, 9] :=
  ⟨by decide, by decide, by decide⟩

/-- Claim C5, amended.  `createRepository`, `addMembership` and
`removeMember` bind the Operations purpose, the three listing calls bind
the Data purpose, and `checkPublicMembership` binds the CustomerFacing
purpose — but `acceptOrganizationInvitation` does not bind the
Operations purpose: it authenticates with the caller-supplied user token
(`token <userToken>`) directly. -/
theorem remote_call_credentials_amended (orgName repositoryName username login tok : String)
    (role : Option String) (perPage : Nat) :
    (createRepositoryCall orgName repositoryName).credential =
        AuthCredential.purpose AppPurpose.Operations ∧
      (addMembershipCall orgName username role).credential =
        AuthCredential.purpose AppPurpose.Operations ∧
      (removeMemberCall orgName login).credential =
        AuthCredential.purpose AppPurpose.Operations ∧
      (acceptOrganizationInvitationCall orgName tok).credential =
        AuthCredential.userToken ("token " ++ tok) ∧
      (getMembersCall orgName perPage).credential =
        AuthCredential.purpose AppPurpose.Data ∧
      (getTeamsCall orgName perPage).credential =
        AuthCredential.purpose AppPurpose.Data ∧
      (getRepositoriesCall orgName perPage).credential =
        AuthCredential.purpose AppPurpose.Data ∧
      (checkPublicMembershipCall orgName username).credential =
        AuthCredential.purpose AppPurpose.CustomerFacing :=
  ⟨rfl, rfl, rfl, rfl, rfl, rfl, rfl, rfl⟩

/-- Counterexample for C5 as stated: the invitation-acceptance call
carries a raw user-token header, which is not the Operations purpose
binding the claim requires. -/
theorem accept_invitation_uses_user_token :
    (acceptOrganizationInvitationCall "contoso" "mytoken").credential =
        AuthCredential.userToken "token mytoken" ∧
      AuthCredential.userToken "token mytoken" ≠
        AuthCredential.purpose AppPurpose.Operations :=
  ⟨rfl, by decide⟩

/-- Claim C6, amended.  The `name` field never changes after
construction (no sequence of `getDetails` calls writes it), but the `id`
field is NOT set at most once: every `getDetails` call whose response
entity carries a truthy id overwrites it, so after a sequence of calls
`id` equals the id of the last such response, falling back to the value
assigned at construction. -/
theorem organization_identity_evolution_amended (st : OrganizationState)
    (responses : List (Option GitHubOrgEntity)) :
    (runGetDetails st responses).name = st.name ∧
      (runGetDetails st responses).id =
        (match lastTruthyId responses with
          | some i => some i
          | none => st.id) := by
  induction responses generalizing st with
  | nil => exact ⟨rfl, rfl⟩
  | cons o rest ih =>
    have hstep := ih (getDetailsUpdate st o)
    refine ⟨hstep.1.trans (getDetailsUpdate_name st o), ?_⟩
    show (runGetDetails (getDetailsUpdate st o) rest).id = _
    rw [hstep.2]
    cases hrest : lastTruthyId rest with
    | some i => simp [lastTruthyId, hrest]
    | none =>
      cases o with
      | none => simp [lastTruthyId, hrest, truthyId, getDetailsUpdate]
      | some e =>
        by_cases h : e.id = 0 <;>
          simp [lastTruthyId, hrest, truthyId, getDetailsUpdate, h]

/-- Counterexample for C6 as stated: an organization constructed from
settings carrying organization id 5 has `id = some 5`; a subsequent
`getDetails` call whose response entity carries id 7 reassigns the field
to `some 7`, so the id is not set at most once. -/
theorem organization_id_reassigned :
    (constructOrganization "contoso" ⟨none, some 5, []⟩).id = some 5 ∧
      (getDetailsUpdate (constructOrganization "contoso" ⟨none, some 5, []⟩)
        (some ⟨7⟩)).id = some 7 ∧
      (some 7 : Option Nat) ≠ some 5 :=
  ⟨by decide, by decide, by decide⟩

/-- Claim C7: when the settings configure no Sudo special team,
`isSudoer` returns `false` without issuing any remote team-membership
query, for every debug flag and every would-be remote outcome. -/
theorem no_sudo_team_returns_false_without_remote_call (settings : OrganizationSetting)
    (orgSudoOff : Bool) (membershipOutcome : Except GHError (Option GitHubTeamRole))
    (h : settings.specialTeams.filter (fun e => e.specialTeam = SpecialTeam.Sudo) = []) :
    isSudoer settings orgSudoOff membershipOutcome = (Except.ok false, 0) := by
  have hids : specialTeamIds settings SpecialTeam.Sudo = [] := by
    rw [specialTeamIds_eq_headSingleton]
    unfold configuredTeamIds
    rw [h]
    rfl
  have hsudo : sudoersTeam settings = Except.ok none := by
    rw [sudoersTeam_eq_head, hids]; rfl
  unfold isSudoer
  rw [hsudo]

/-- Witness for C7: with a settings record configuring only an Everyone
team, `isSudoer` returns `false` with zero remote calls even though the
injected membership outcome is a 500-status fault. -/
theorem no_sudo_team_returns_false_witness :
    isSudoer ⟨none, none, [⟨SpecialTeam.Everyone, 2⟩]⟩ false
        (Except.error ⟨some 500⟩) = (Except.ok false, 0) :=
  no_sudo_team_returns_false_without_remote_call
    ⟨none, none, [⟨SpecialTeam.Everyone, 2⟩]⟩ false (Except.error ⟨some 500⟩) (by decide)

/-- Claim C8: when no team's lower-cased slug or name matches the
lower-cased input and no team's decimal id equals it either,
`getTeamFromName` throws the not-found error with status 404 and the
`skipLog` flag set. -/
theorem unmatched_lookup_not_found (teams : List Team) (input : String)
    (h : ∀ t ∈ teams, jsToLower input ≠ jsToLower t.name ∧
      jsToLower input ≠ jsToLower t.slug ∧ toString t.id ≠ jsToLower input) :
    getTeamFromName input teams = TeamLookupResult.notFound 404 true :=
  getTeamFromNameLoop_no_match teams (jsToLower input) h

/-- Witness for C8: input `nonexistent` against the one-team list with
name `X`, slug `x`, id 1 yields the 404/skipLog outcome. -/
theorem unmatched_lookup_not_found_witness :
    getTeamFromName "nonexistent" [⟨1, "X", "x"⟩] =
      TeamLookupResult.notFound 404 true :=
  unmatched_lookup_not_found [⟨1, "X", "x"⟩] "nonexistent" (by decide)

/-- Claim C9: whenever the primary remote membership removal succeeds,
`removeMember` reports success — for every query-cache configuration,
every optional member id, and every outcome of the account lookup and
the secondary cache removal, including faulting ones; the whole
secondary synchronization step is swallowed. -/
theorem primary_success_ignores_secondary_failures (queryCacheSupports : Bool)
    (optionalId : Option String) (accountLookup : Except GHError Nat)
    (cacheRemoval : Except GHError Unit) :
    removeMember (Except.ok ()) queryCacheSupports optionalId accountLookup cacheRemoval =
      Except.ok () := by
  unfold removeMember
  cases queryCacheSupports with
  | false => rfl
  | true =>
    cases removeMemberSecondary optionalId accountLookup cacheRemoval <;> rfl

/-- Claim C10: the three listing operations do not share one
background-refresh defaulting rule — `getTeams` copies the caller's
`backgroundRefresh` into the policy verbatim (so an omitted option
leaves it undefined, overwriting the literal's initial `true`), while
`getMembers` and `getRepositories` default it to `true` and lower it to
`false` only when the caller passed exactly `false`. -/
theorem background_refresh_defaulting_rules (options : PagedCacheOptions)
    (orgMembersStaleSeconds orgTeamsStaleSeconds orgReposStaleSeconds : Int) :
    (getTeamsCaching options orgTeamsStaleSeconds).backgroundRefresh =
        options.backgroundRefresh ∧
      (getMembersCaching options orgMembersStaleSeconds).backgroundRefresh =
        (if options.backgroundRefresh = some false then some false else some true) ∧
      (getRepositoriesCaching options orgReposStaleSeconds).backgroundRefresh =
        (if options.backgroundRefresh = some false then some false else some true) := by
  refine ⟨rfl, ?_, ?_⟩ <;>
    by_cases h : options.backgroundRefresh = some false <;>
      simp [getMembersCaching, getRepositoriesCaching, h]

end OpenSourcePortal
